import Mathlib

set_option linter.unusedVariables false

/-!
Shallow embedding of the esp32_wifi_entest capture engine.

Embedded source files:
- pcap_writer.c — the PCAP capture-file writer (global header, per-packet
  records, close).
- main/handshake_capture.c — the EAPOL frame classifier (promisc_cb), the
  deauthentication frame builder (send_deauth_frame), and the capture session
  orchestration (handshake_deauth_and_capture).
- main/http_server.c — the channel-validation fragment of attack_get_handler.

Machine integers are modelled as Nat with explicit mod arithmetic at the
points where 32-bit wraparound matters (the little-endian field encoders).
File and radio side effects are modelled by explicit state passing plus an
action trace (the list of radio / file-system calls the code performs, in
program order); fallible C calls (fopen, fwrite) take their outcomes as
explicit Boolean inputs, since the C code receives them from the environment.
-/

/-- Little-endian byte encoding of a 16-bit field. -/
def le16 (n : Nat) : List Nat := [n % 256, n / 256 % 256]

/-- Little-endian byte encoding of a 32-bit field. -/
def le32 (n : Nat) : List Nat :=
  [n % 256, n / 256 % 256, n / 65536 % 256, n / 16777216 % 256]

/-- Decode the first four bytes of a list as a little-endian 32-bit value
    (how a conformant PCAP reader reads one header field). -/
def readLe32 : List Nat → Nat
  | a :: b :: c :: d :: _ => a + 256 * b + 65536 * c + 16777216 * d
  | _ => 0

/-- Tag for the promiscuous receive callback registered with the radio. -/
inductive CbTag where
  | nullCb
  | promiscCb
  | otherCb
deriving DecidableEq

/-- Observable radio and file-system actions, recorded in program order. -/
inductive RAction where
  | setPromiscuous (b : Bool)
  | wifiStop
  | wifiStart
  | setChannel (ch : Nat)
  | setRxCb (cb : CbTag)
  | txFrame (frame : List Nat)
  | fsOpen (ok : Bool)
  | fsWriteHdr (ok : Bool)
  | fsWriteData (ok : Bool)
  | fsClose
deriving DecidableEq

/-- State of pcap_writer.c: the pcap_file global. none models a NULL FILE
    pointer; some f models an open file whose bytes written so far are f. -/
structure PcapState where
  pcapFile : Option (List Nat)
deriving DecidableEq

/-- The 24-byte PCAP global header written by pcap_writer_init, packed
    little-endian exactly as the pcap_global_header_t struct initializer:
    magic 0xa1b2c3d4, version 2.4, thiszone 0, sigfigs 0, snaplen 0xffff,
    network 105. -/
def pcapGlobalHeader : List Nat :=
  le32 0xa1b2c3d4 ++ le16 2 ++ le16 4 ++ le32 0 ++ le32 0 ++ le32 0xffff ++ le32 105

/-- pcap_writer_init: fopen the sink, then fwrite the global header; on a
    header-write failure the file is fclosed and the global reset to NULL.
    The two Booleans are the environment-determined outcomes of fopen and of
    the header fwrite. Returns the new state, the C return value, and the
    action trace. -/
def pcap_writer_init (fopenOk hdrOk : Bool) : PcapState × Bool × List RAction :=
  if !fopenOk then (⟨none⟩, false, [RAction.fsOpen false])
  else if hdrOk then
    (⟨some pcapGlobalHeader⟩, true, [RAction.fsOpen true, RAction.fsWriteHdr true])
  else
    (⟨none⟩, false, [RAction.fsOpen true, RAction.fsWriteHdr false, RAction.fsClose])

/-- The 16-byte per-packet record header: ts_sec, ts_usec, incl_len, orig_len,
    with incl_len = orig_len = the payload length (pcap_packet_header_t). -/
def pcapPacketHeader (tsSec tsUsec len : Nat) : List Nat :=
  le32 tsSec ++ le32 tsUsec ++ le32 len ++ le32 len

/-- pcap_writer_write_packet: fail when the file is not open; otherwise fwrite
    the record header, then fwrite the payload. The Booleans give the outcomes
    of the two fwrite calls (a failed fwrite appends nothing). -/
def pcap_writer_write_packet (s : PcapState) (data : List Nat) (tsSec tsUsec : Nat)
    (hdrOk dataOk : Bool) : PcapState × Bool × List RAction :=
  match s.pcapFile with
  | none => (s, false, [])
  | some f =>
    if hdrOk then
      if dataOk then
        (⟨some (f ++ pcapPacketHeader tsSec tsUsec data.length ++ data)⟩, true,
          [RAction.fsWriteHdr true, RAction.fsWriteData true])
      else
        (⟨some (f ++ pcapPacketHeader tsSec tsUsec data.length)⟩, false,
          [RAction.fsWriteHdr true, RAction.fsWriteData false])
    else (s, false, [RAction.fsWriteHdr false])

/-- pcap_writer_close: fclose and reset the global when the file is open,
    otherwise do nothing. -/
def pcap_writer_close (s : PcapState) : PcapState × List RAction :=
  match s.pcapFile with
  | none => (s, [])
  | some _ => (⟨none⟩, [RAction.fsClose])

/-- One write_packet call on the success path (both fwrite calls succeed),
    keeping only the writer state; the packet is paired with its
    (ts_sec, ts_usec) timestamp. -/
def writeOkStep (s : PcapState) (p : (Nat × Nat) × List Nat) : PcapState :=
  (pcap_writer_write_packet s p.2 p.1.1 p.1.2 true true).1

/-- Run a sequence of write_packet calls on the success path. -/
def runWrites (s : PcapState) (pairs : List ((Nat × Nat) × List Nat)) : PcapState :=
  pairs.foldl writeOkStep s

/-- File bytes contributed by one (timestamp, payload) pair: the 16-byte
    record header followed by the payload. -/
def pcapRecord (p : (Nat × Nat) × List Nat) : List Nat :=
  pcapPacketHeader p.1.1 p.1.2 p.2.length ++ p.2

lemma runWrites_some (pairs : List ((Nat × Nat) × List Nat)) :
    ∀ f, (runWrites ⟨some f⟩ pairs).pcapFile = some (f ++ (pairs.map pcapRecord).flatten) := by
  induction pairs with
  | nil => intro f; simp [runWrites]
  | cons p ps ih =>
    intro f
    have step : writeOkStep ⟨some f⟩ p = ⟨some (f ++ pcapRecord p)⟩ := by
      simp [writeOkStep, pcap_writer_write_packet, pcapRecord, List.append_assoc]
    have h := ih (f ++ pcapRecord p)
    simp only [runWrites, List.foldl_cons, step] at *
    simp [h, List.append_assoc]

/-- C3: a successful open writes exactly the 24-byte little-endian global
    header — magic 0xA1B2C3D4, version major 2 minor 4, timezone 0, sigfigs 0,
    snaplen 0x0000FFFF, link-layer type 105 — as the entire initial file
    content, and every later sequence of successful packet writes keeps it,
    unmodified, as the first 24 bytes of the file. -/
theorem pcap_writer_init_header :
    pcap_writer_init true true =
      (⟨some pcapGlobalHeader⟩, true, [RAction.fsOpen true, RAction.fsWriteHdr true])
    ∧ pcapGlobalHeader =
      [0xd4, 0xc3, 0xb2, 0xa1, 2, 0, 4, 0, 0, 0, 0, 0, 0, 0, 0, 0,
        0xff, 0xff, 0, 0, 105, 0, 0, 0]
    ∧ pcapGlobalHeader.length = 24
    ∧ ∀ pairs, ((runWrites (pcap_writer_init true true).1 pairs).pcapFile.getD []).take 24
        = pcapGlobalHeader := by
  refine ⟨rfl, by decide, by decide, ?hpre⟩
  intro pairs
  have h := runWrites_some pairs pcapGlobalHeader
  have hinit : (pcap_writer_init true true).1 = (⟨some pcapGlobalHeader⟩ : PcapState) := rfl
  rw [hinit, h]
  have h24 : (24 : Nat) = pcapGlobalHeader.length := by decide
  simp only [Option.getD_some, h24, List.take_left]

/-- C10: pcap_writer_close is idempotent — once a close has run, a second
    close performs no file-system action and leaves the writer state
    unchanged; close on a never-opened writer is likewise a no-op. -/
theorem pcap_writer_close_idempotent (s : PcapState) :
    pcap_writer_close (pcap_writer_close s).1 = ((pcap_writer_close s).1, [])
    ∧ pcap_writer_close ⟨none⟩ = (⟨none⟩, []) := by
  refine ⟨?h1, rfl⟩
  rcases s with ⟨_ | f⟩ <;> rfl

/-- Parsed PCAP record: ((ts_sec, ts_usec), incl_len, orig_len, payload). -/
abbrev ParsedRec := (Nat × Nat) × Nat × Nat × List Nat

/-- Read the record portion of a PCAP file back: repeatedly read one 16-byte
    record header, then incl_len payload bytes; fail on a truncated file. -/
def parseRecords (l : List Nat) : Option (List ParsedRec) :=
  if hnil : l = [] then some []
  else if h16 : 16 ≤ l.length then
    if hin : 16 + readLe32 (l.drop 8) ≤ l.length then
      match parseRecords (l.drop (16 + readLe32 (l.drop 8))) with
      | some rs =>
          some (((readLe32 l, readLe32 (l.drop 4)), readLe32 (l.drop 8),
            readLe32 (l.drop 12), (l.drop 16).take (readLe32 (l.drop 8))) :: rs)
      | none => none
    else none
  else none
termination_by l.length
decreasing_by
  simp only [List.length_drop]
  omega

lemma le32_append_drop4 (n : Nat) (r : List Nat) : (le32 n ++ r).drop 4 = r := rfl

lemma readLe32_le32 (n : Nat) (r : List Nat) :
    readLe32 (le32 n ++ r) = n % 4294967296 := by
  simp only [le32, List.cons_append, List.nil_append, readLe32]
  omega

lemma parseRecords_flatten (pairs : List ((Nat × Nat) × List Nat))
    (h : ∀ p ∈ pairs, p.2.length < 4294967296) :
    parseRecords ((pairs.map pcapRecord).flatten)
      = some (pairs.map fun p => ((p.1.1 % 4294967296, p.1.2 % 4294967296),
          p.2.length, p.2.length, p.2)) := by
  induction pairs with
  | nil => simp [parseRecords]
  | cons p ps ih =>
    have hlen : p.2.length < 4294967296 := h p (List.mem_cons_self p ps)
    have hrest : ∀ q ∈ ps, q.2.length < 4294967296 := fun q hq => h q (List.mem_cons_of_mem p hq)
    set rest := (ps.map pcapRecord).flatten with hrestdef
    have e1 : ((p :: ps).map pcapRecord).flatten
        = le32 p.1.1 ++ (le32 p.1.2 ++ (le32 p.2.length ++ (le32 p.2.length
            ++ (p.2 ++ rest)))) := by
      simp [pcapRecord, pcapPacketHeader, List.append_assoc]
    set l := ((p :: ps).map pcapRecord).flatten with hldef
    have hd4 : l.drop 4 = le32 p.1.2 ++ (le32 p.2.length ++ (le32 p.2.length ++ (p.2 ++ rest))) := by
      rw [e1]; rfl
    have hd8 : l.drop 8 = le32 p.2.length ++ (le32 p.2.length ++ (p.2 ++ rest)) := by
      rw [e1]; rfl
    have hd12 : l.drop 12 = le32 p.2.length ++ (p.2 ++ rest) := by
      rw [e1]; rfl
    have hd16 : l.drop 16 = p.2 ++ rest := by
      rw [e1]; rfl
    have hlength : l.length = 16 + (p.2.length + rest.length) := by
      rw [e1]; simp [le32]; omega
    have hne : ¬(l = []) := by
      intro hc
      rw [hc] at hlength
      simp only [List.length_nil] at hlength
      omega
    have h16 : 16 ≤ l.length := by omega
    have hr8 : readLe32 (l.drop 8) = p.2.length := by
      rw [hd8, readLe32_le32, Nat.mod_eq_of_lt hlen]
    have hr12 : readLe32 (l.drop 12) = p.2.length := by
      rw [hd12, readLe32_le32, Nat.mod_eq_of_lt hlen]
    have hr0 : readLe32 l = p.1.1 % 4294967296 := by
      rw [e1, readLe32_le32]
    have hr4 : readLe32 (l.drop 4) = p.1.2 % 4294967296 := by
      rw [hd4, readLe32_le32]
    have hin : 16 + readLe32 (l.drop 8) ≤ l.length := by
      rw [hr8]; omega
    have htake : (l.drop 16).take p.2.length = p.2 := by
      rw [hd16, List.take_left]
    have hdroprec : l.drop (16 + readLe32 (l.drop 8)) = rest := by
      rw [hr8]
      have : l.drop (16 + p.2.length) = (l.drop 16).drop p.2.length := by
        rw [List.drop_drop, Nat.add_comm]
      rw [this, hd16, List.drop_left]
    rw [parseRecords]
    rw [dif_neg hne, dif_pos h16, dif_pos hin, hdroprec, ih hrest]
    simp only [hr0, hr4, hr8, hr12, htake, List.map_cons]


/-- C2: after a successful open, any sequence of accepted writeFrame calls
    produces exactly the 24-byte global header followed by the records in the
    order written — each a 16-byte header whose incl_len and orig_len fields
    both hold the payload length, followed by the payload bytes unmodified —
    and parsing the post-header bytes back recovers, in order, records with
    incl_len = orig_len = payload length and identical payload bytes. -/
theorem pcap_write_sequence_roundtrip (pairs : List ((Nat × Nat) × List Nat))
    (h : ∀ p ∈ pairs, p.2.length < 4294967296) :
    (runWrites (pcap_writer_init true true).1 pairs).pcapFile
      = some (pcapGlobalHeader ++ (pairs.map pcapRecord).flatten)
    ∧ parseRecords (((runWrites (pcap_writer_init true true).1 pairs).pcapFile.getD []).drop 24)
      = some (pairs.map fun p => ((p.1.1 % 4294967296, p.1.2 % 4294967296),
          p.2.length, p.2.length, p.2)) := by
  have hinit : (pcap_writer_init true true).1 = (⟨some pcapGlobalHeader⟩ : PcapState) := rfl
  have hfile := runWrites_some pairs pcapGlobalHeader
  rw [hinit]
  refine ⟨hfile, ?hparse⟩
  rw [hfile]
  have h24 : (24 : Nat) = pcapGlobalHeader.length := by decide
  simp only [Option.getD_some, h24, List.drop_left]
  exact parseRecords_flatten pairs h

/-- Witness for C2 at one concrete write: timestamp (1, 2), payload
    [171, 205]. -/
theorem pcap_write_sequence_roundtrip_witness :
    (runWrites (pcap_writer_init true true).1 [((1, 2), [171, 205])]).pcapFile
      = some (pcapGlobalHeader ++ ([((1, 2), [171, 205])].map pcapRecord).flatten)
    ∧ parseRecords
        (((runWrites (pcap_writer_init true true).1 [((1, 2), [171, 205])]).pcapFile.getD
          []).drop 24)
      = some ([((1, 2), [171, 205])].map fun p => ((p.1.1 % 4294967296, p.1.2 % 4294967296),
          p.2.length, p.2.length, p.2)) :=
  pcap_write_sequence_roundtrip [((1, 2), [171, 205])] (by decide)

/-- Frame control field as computed by promisc_cb: the first two payload
    bytes, read unconditionally, combined little-endian. Out-of-range reads
    (undefined behavior in the C) are modelled as reading 0. -/
def fcField (frame : List Nat) : Nat :=
  frame.getD 0 0 ||| frame.getD 1 0 <<< 8

/-- The 2-bit frame type subfield: bits 2 and 3 of the frame control field. -/
def frameType (frame : List Nat) : Nat :=
  fcField frame >>> 2 &&& 3

/-- LLC/SNAP EAPOL signature compared at offset 24: DSAP 0xAA, SSAP 0xAA,
    control 0x03, OUI 00:0C:00, protocol 0x888E. -/
def eapolPattern : List Nat := [0xAA, 0xAA, 0x03, 0x00, 0x0C, 0x00, 0x88, 0x8E]

/-- Frame Classifier of promisc_cb: reject unless the frame type is Data (2),
    reject when the delivered length is below 30, then compare the eight bytes
    at offsets 24..31 against the EAPOL signature, left to right with C short
    circuit. Reads past the delivered length (reachable at lengths 30 and 31)
    are modelled as reading 0. -/
def classify (frame : List Nat) : Bool :=
  if frameType frame != 2 then false
  else if frame.length < 30 then false
  else
    frame.getD 24 0 == 0xAA && (frame.getD 25 0 == 0xAA && (frame.getD 26 0 == 0x03 &&
      (frame.getD 27 0 == 0x00 && (frame.getD 28 0 == 0x0C && (frame.getD 29 0 == 0x00 &&
      (frame.getD 30 0 == 0x88 && (frame.getD 31 0 == 0x8E)))))))

lemma getD_drop24 (frame : List Nat) (j : Nat) :
    (frame.drop 24).getD j 0 = frame.getD (24 + j) 0 := by
  simp [List.getD, List.getElem?_drop]

lemma slice8_eq_pattern_iff (t : List Nat) :
    t.take 8 = eapolPattern ↔
      t.getD 0 0 = 0xAA ∧ t.getD 1 0 = 0xAA ∧ t.getD 2 0 = 0x03 ∧ t.getD 3 0 = 0x00 ∧
      t.getD 4 0 = 0x0C ∧ t.getD 5 0 = 0x00 ∧ t.getD 6 0 = 0x88 ∧ t.getD 7 0 = 0x8E := by
  rcases t with _ | ⟨a, _ | ⟨b, _ | ⟨c, _ | ⟨d, _ | ⟨e, _ | ⟨f, _ | ⟨g, _ | ⟨k, tt⟩⟩⟩⟩⟩⟩⟩⟩ <;>
    simp [eapolPattern, List.getD]

lemma slice8_at24 (frame : List Nat) :
    (frame.drop 24).take 8 = eapolPattern ↔
      frame.getD 24 0 = 0xAA ∧ frame.getD 25 0 = 0xAA ∧ frame.getD 26 0 = 0x03 ∧
      frame.getD 27 0 = 0x00 ∧ frame.getD 28 0 = 0x0C ∧ frame.getD 29 0 = 0x00 ∧
      frame.getD 30 0 = 0x88 ∧ frame.getD 31 0 = 0x8E := by
  have h := slice8_eq_pattern_iff (frame.drop 24)
  simp only [getD_drop24] at h
  exact h

/-- C1: the Frame Classifier retains a frame exactly when the 2-bit frame-type
    subfield of the first two bytes encodes Data (2), the delivered length is
    at least 30, and the eight bytes at offset 24 equal the EAPOL LLC/SNAP
    signature AA AA 03 00 0C 00 88 8E; any single-byte deviation from the
    signature, any other frame type, and any length below 30 all reject. -/
theorem classify_iff (frame : List Nat) :
    classify frame = true ↔
      frameType frame = 2 ∧ 30 ≤ frame.length ∧ (frame.drop 24).take 8 = eapolPattern := by
  unfold classify
  split_ifs with ht hl
  · simp only [Bool.false_eq_true, false_iff]
    rintro ⟨h1, h2, h3⟩
    exact absurd h1 (by simpa using ht)
  · simp only [Bool.false_eq_true, false_iff]
    rintro ⟨h1, h2, h3⟩
    omega
  · have ht2 : frameType frame = 2 := by simpa using ht
    rw [slice8_at24 frame]
    simp only [Bool.and_eq_true, beq_iff_eq]
    constructor
    · rintro ⟨h24, h25, h26, h27, h28, h29, h30, h31⟩
      exact ⟨ht2, by omega, h24, h25, h26, h27, h28, h29, h30, h31⟩
    · rintro ⟨h1, h2, h24, h25, h26, h27, h28, h29, h30, h31⟩
      exact ⟨h24, h25, h26, h27, h28, h29, h30, h31⟩

/-- Byte offsets promisc_cb reads from a delivered frame, in C evaluation
    order: the two frame-control bytes are read unconditionally, before any
    length check; the LLC/SNAP offsets 24..31 are read left to right, with
    short circuit, only after the frame-type and length checks pass. -/
def classifierReads (frame : List Nat) : List Nat :=
  [0, 1] ++
    (if frameType frame != 2 then []
     else if frame.length < 30 then []
     else [24] ++
       (if frame.getD 24 0 != 0xAA then []
        else [25] ++ (if frame.getD 25 0 != 0xAA then []
        else [26] ++ (if frame.getD 26 0 != 0x03 then []
        else [27] ++ (if frame.getD 27 0 != 0x00 then []
        else [28] ++ (if frame.getD 28 0 != 0x0C then []
        else [29] ++ (if frame.getD 29 0 != 0x00 then []
        else [30] ++ (if frame.getD 30 0 != 0x88 then []
        else [31]))))))))

/-- Counterexample to C9 as stated: on the empty delivered frame the
    classifier still reads offsets 0 and 1 (the frame-control bytes), which
    are not strictly below the delivered length. -/
theorem classifierReads_oob_on_empty :
    ¬ ∀ i ∈ classifierReads [], i < List.length ([] : List Nat) := by decide

/-- C9 amended: every offset the classifier reads is below 32, so for every
    delivered frame of length at least 32 all reads are strictly below the
    delivered length. (Frames shorter than 2 bytes still get their
    frame-control offsets read, and frames of length 30 or 31 whose bytes at
    offsets 24..29 match the signature prefix get offsets 30 and 31 read.) -/
theorem classifierReads_inbounds (frame : List Nat) (h : 32 ≤ frame.length) :
    ∀ i ∈ classifierReads frame, i < frame.length := by
  intro i hi
  have hlt : i < 32 := by
    unfold classifierReads at hi
    split_ifs at hi <;> simp at hi <;> omega
  omega

/-- A 32-byte Data frame carrying the EAPOL LLC/SNAP signature at offset 24. -/
def eapolTestFrame : List Nat := [8, 0] ++ List.replicate 22 0 ++ eapolPattern

/-- Witness for the amended C9 at the concrete 32-byte EAPOL test frame,
    instantiated at offset 31 (the last offset the classifier reads there). -/
theorem classifierReads_inbounds_witness :
    32 ≤ eapolTestFrame.length ∧ 31 < eapolTestFrame.length :=
  ⟨by decide, classifierReads_inbounds eapolTestFrame (by decide) 31 (by decide)⟩

/-- Write one byte at a fixed offset of a buffer (deauth[off] = v). -/
def setByte (buf : List Nat) (off v : Nat) : List Nat :=
  buf.take off ++ [v] ++ buf.drop (off + 1)

/-- memcpy of a whole source block into a buffer at a fixed offset. -/
def memcpyAt (buf : List Nat) (off : Nat) (src : List Nat) : List Nat :=
  buf.take off ++ src ++ buf.drop (off + src.length)

/-- send_deauth_frame body: memset a 26-byte buffer to zero, set frame control
    byte 0 to 0xc0, memcpy the receiver, transmitter and BSSID addresses at
    offsets 4, 10 and 16, then set the reason code bytes 24 and 25 to
    0x07, 0x00. -/
def send_deauth_frame (dest src bssid : List Nat) : List Nat :=
  let d0 := List.replicate 26 0
  let d1 := setByte d0 0 0xc0
  let d2 := memcpyAt d1 4 dest
  let d3 := memcpyAt d2 10 src
  let d4 := memcpyAt d3 16 bssid
  let d5 := setByte d4 24 0x07
  setByte d5 25 0x00

lemma list_len6 (l : List Nat) (h : l.length = 6) :
    ∃ a0 a1 a2 a3 a4 a5, l = [a0, a1, a2, a3, a4, a5] := by
  rcases l with _ | ⟨a0, _ | ⟨a1, _ | ⟨a2, _ | ⟨a3, _ | ⟨a4, _ | ⟨a5, _ | ⟨a6, tl⟩⟩⟩⟩⟩⟩⟩
  all_goals simp only [List.length_cons, List.length_nil] at h
  all_goals first
    | omega
    | exact ⟨a0, a1, a2, a3, a4, a5, rfl⟩

/-- C4: for any 6-byte (dest, src, bssid) triple the constructed deauth frame
    is exactly 26 bytes, with frame control byte 0xC0 at offset 0, zero
    duration at offsets 2-3, dest at 4-9, src at 10-15, bssid at 16-21, and
    the fixed reason code 0x0007 little-endian (0x07, 0x00) at offsets 24-25. -/
theorem send_deauth_frame_shape (dest src bssid : List Nat)
    (hd : dest.length = 6) (hs : src.length = 6) (hb : bssid.length = 6) :
    (send_deauth_frame dest src bssid).length = 26
    ∧ (send_deauth_frame dest src bssid).getD 0 0 = 0xc0
    ∧ (send_deauth_frame dest src bssid).getD 2 0 = 0
    ∧ (send_deauth_frame dest src bssid).getD 3 0 = 0
    ∧ ((send_deauth_frame dest src bssid).drop 4).take 6 = dest
    ∧ ((send_deauth_frame dest src bssid).drop 10).take 6 = src
    ∧ ((send_deauth_frame dest src bssid).drop 16).take 6 = bssid
    ∧ (send_deauth_frame dest src bssid).getD 24 0 = 0x07
    ∧ (send_deauth_frame dest src bssid).getD 25 0 = 0x00 := by
  obtain ⟨a0, a1, a2, a3, a4, a5, rfl⟩ := list_len6 dest hd
  obtain ⟨b0, b1, b2, b3, b4, b5, rfl⟩ := list_len6 src hs
  obtain ⟨c0, c1, c2, c3, c4, c5, rfl⟩ := list_len6 bssid hb
  refine ⟨?g1, ?g2, ?g3, ?g4, ?g5, ?g6, ?g7, ?g8, ?g9⟩ <;>
    simp [send_deauth_frame, setByte, memcpyAt, List.getD]

/-- Witness for C4 at three concrete MAC addresses. -/
theorem send_deauth_frame_shape_witness :
    (send_deauth_frame [1, 2, 3, 4, 5, 6] [7, 8, 9, 10, 11, 12]
        [13, 14, 15, 16, 17, 18]).length = 26
    ∧ (send_deauth_frame [1, 2, 3, 4, 5, 6] [7, 8, 9, 10, 11, 12]
        [13, 14, 15, 16, 17, 18]).getD 0 0 = 0xc0
    ∧ (send_deauth_frame [1, 2, 3, 4, 5, 6] [7, 8, 9, 10, 11, 12]
        [13, 14, 15, 16, 17, 18]).getD 2 0 = 0
    ∧ (send_deauth_frame [1, 2, 3, 4, 5, 6] [7, 8, 9, 10, 11, 12]
        [13, 14, 15, 16, 17, 18]).getD 3 0 = 0
    ∧ ((send_deauth_frame [1, 2, 3, 4, 5, 6] [7, 8, 9, 10, 11, 12]
        [13, 14, 15, 16, 17, 18]).drop 4).take 6 = [1, 2, 3, 4, 5, 6]
    ∧ ((send_deauth_frame [1, 2, 3, 4, 5, 6] [7, 8, 9, 10, 11, 12]
        [13, 14, 15, 16, 17, 18]).drop 10).take 6 = [7, 8, 9, 10, 11, 12]
    ∧ ((send_deauth_frame [1, 2, 3, 4, 5, 6] [7, 8, 9, 10, 11, 12]
        [13, 14, 15, 16, 17, 18]).drop 16).take 6 = [13, 14, 15, 16, 17, 18]
    ∧ (send_deauth_frame [1, 2, 3, 4, 5, 6] [7, 8, 9, 10, 11, 12]
        [13, 14, 15, 16, 17, 18]).getD 24 0 = 0x07
    ∧ (send_deauth_frame [1, 2, 3, 4, 5, 6] [7, 8, 9, 10, 11, 12]
        [13, 14, 15, 16, 17, 18]).getD 25 0 = 0x00 :=
  send_deauth_frame_shape [1, 2, 3, 4, 5, 6] [7, 8, 9, 10, 11, 12]
    [13, 14, 15, 16, 17, 18] (by decide) (by decide) (by decide)

/-- Radio (esp_wifi) state visible to handshake_capture.c. -/
structure RadioState where
  promiscuous : Bool
  started : Bool
  channel : Nat
  rxCb : CbTag
deriving DecidableEq

/-- Session state of handshake_capture.c: the g_capturing flag, the
    g_target_bssid and g_target_channel globals, the radio, and the PCAP
    writer state. -/
structure HsState where
  capturing : Bool
  targetBssid : List Nat
  targetChannel : Nat
  radio : RadioState
  writer : PcapState
deriving DecidableEq

/-- One raw frame delivered by the radio during the capture window, together
    with the gettimeofday timestamp its write would record and the outcomes of
    the two fwrite calls its write would perform. -/
structure FrameEv where
  bytes : List Nat
  tsSec : Nat
  tsUsec : Nat
  hdrOk : Bool
  dataOk : Bool

/-- Environment of one handshake_deauth_and_capture call: the fopen and
    header fwrite outcomes, the local station MAC returned by
    esp_wifi_get_mac, the frames the radio delivers while capturing, and the
    number of iterations the timed deauth loop runs. -/
structure CaptureEnv where
  fopenOk : Bool
  hdrWriteOk : Bool
  espMac : List Nat
  frames : List FrameEv
  loopIters : Nat

/-- esp_err_t values handshake_deauth_and_capture can return: ESP_OK,
    ESP_FAIL, ESP_ERR_INVALID_STATE. -/
inductive EspErr where
  | ok
  | fail
  | invalidState
deriving DecidableEq

/-- promisc_cb: drop the frame when g_capturing is clear; otherwise classify
    it and, when retained, write it through pcap_writer_write_packet — whose
    Boolean result the callback discards. -/
def promisc_cb (st : HsState) (ev : FrameEv) : HsState × List RAction :=
  if !st.capturing then (st, [])
  else if classify ev.bytes then
    let r := pcap_writer_write_packet st.writer ev.bytes ev.tsSec ev.tsUsec ev.hdrOk ev.dataOk
    ({st with writer := r.1}, r.2.2)
  else (st, [])

/-- Deliver a list of frames through promisc_cb, in arrival order. -/
def deliverFrames (st : HsState) : List FrameEv → HsState × List RAction
  | [] => (st, [])
  | ev :: evs =>
    let r := promisc_cb st ev
    let rest := deliverFrames r.1 evs
    (rest.1, r.2 ++ rest.2)

/-- Broadcast MAC ff:ff:ff:ff:ff:ff used as the deauth destination. -/
def broadcastMac : List Nat := [0xff, 0xff, 0xff, 0xff, 0xff, 0xff]

/-- handshake_deauth_and_capture, transcribed step by step: reject when
    already capturing; record the target; disable promiscuous, stop, switch
    channel, start, enable promiscuous (return values ignored, as in the C);
    open the PCAP writer and return ESP_FAIL on failure (note: without any
    teardown); register promisc_cb and set g_capturing; receive the delivered
    frames via the callback while the deauth loop transmits; then disable
    promiscuous, deregister the callback, close the writer, clear
    g_capturing, and restart the radio. Asynchronous callback delivery is
    sequentialized: all frames of the capture window are processed before the
    transmit trace, which affects no claim checked here. -/
def handshake_deauth_and_capture (st : HsState) (bssid : List Nat) (channel : Nat)
    (env : CaptureEnv) : EspErr × HsState × List RAction :=
  if st.capturing then (EspErr.invalidState, st, [])
  else
    let st1 := {st with targetBssid := bssid, targetChannel := channel}
    let st2 := {st1 with radio := {st1.radio with promiscuous := false}}
    let st3 := {st2 with radio := {st2.radio with started := false}}
    let st4 := {st3 with radio := {st3.radio with channel := st3.targetChannel}}
    let st5 := {st4 with radio := {st4.radio with started := true}}
    let st6 := {st5 with radio := {st5.radio with promiscuous := true}}
    let tr1 := [RAction.setPromiscuous false, RAction.wifiStop,
      RAction.setChannel st3.targetChannel, RAction.wifiStart, RAction.setPromiscuous true]
    let ini := pcap_writer_init env.fopenOk env.hdrWriteOk
    let st7 := {st6 with writer := ini.1}
    if !ini.2.1 then (EspErr.fail, st7, tr1 ++ ini.2.2)
    else
      let st8 := {st7 with radio := {st7.radio with rxCb := CbTag.promiscCb}}
      let st9 := {st8 with capturing := true}
      let dl := deliverFrames st9 env.frames
      let st10 := dl.1
      let txs := List.replicate env.loopIters
        (RAction.txFrame (send_deauth_frame broadcastMac env.espMac st10.targetBssid))
      let st11 := {st10 with radio := {st10.radio with promiscuous := false}}
      let st12 := {st11 with radio := {st11.radio with rxCb := CbTag.nullCb}}
      let cl := pcap_writer_close st12.writer
      let st13 := {st12 with writer := cl.1}
      let st14 := {st13 with capturing := false}
      let st15 := {st14 with radio := {st14.radio with started := false}}
      let st16 := {st15 with radio := {st15.radio with started := true}}
      (EspErr.ok, st16,
        tr1 ++ ini.2.2 ++ [RAction.setRxCb CbTag.promiscCb] ++ dl.2 ++ txs
          ++ [RAction.setPromiscuous false, RAction.setRxCb CbTag.nullCb] ++ cl.2
          ++ [RAction.wifiStop, RAction.wifiStart])

/-- C7: invoking the capture while g_capturing is set returns
    ESP_ERR_INVALID_STATE immediately, performs no radio or file-system
    action, and leaves the whole session state (target BSSID, channel, writer
    handle included) unchanged. -/
theorem handshake_invalid_state (st : HsState) (bssid : List Nat) (channel : Nat)
    (env : CaptureEnv) (h : st.capturing = true) :
    handshake_deauth_and_capture st bssid channel env = (EspErr.invalidState, st, []) := by
  unfold handshake_deauth_and_capture
  simp [h]

/-- A busy session state: a capture is active. -/
def busyState : HsState :=
  ⟨true, [0, 0, 0, 0, 0, 0], 6, ⟨true, true, 6, CbTag.promiscCb⟩, ⟨some pcapGlobalHeader⟩⟩

/-- An idle session state: no capture active, radio in normal STA mode. -/
def idleState : HsState :=
  ⟨false, [0, 0, 0, 0, 0, 0], 1, ⟨false, true, 1, CbTag.nullCb⟩, ⟨none⟩⟩

/-- Witness for C7 at a concrete busy state. -/
theorem handshake_invalid_state_witness :
    handshake_deauth_and_capture busyState [1, 2, 3, 4, 5, 6] 6 ⟨true, true, [9, 9, 9, 9, 9, 9], [], 0⟩
      = (EspErr.invalidState, busyState, []) :=
  handshake_invalid_state busyState [1, 2, 3, 4, 5, 6] 6 ⟨true, true, [9, 9, 9, 9, 9, 9], [], 0⟩
    (by decide)

/-- C5 (code bug): when pcap_writer_init fails (the sink cannot be created),
    handshake_deauth_and_capture returns ESP_FAIL from the early return at the
    PCAP-init check without any teardown, so the call leaves promiscuous mode
    still enabled — the radio is not restored to normal mode as the teardown
    invariant demands — and the trailing trace action is the failed fsOpen,
    with no later setPromiscuous false. -/
theorem handshake_open_failure_skips_teardown :
    (handshake_deauth_and_capture idleState [1, 2, 3, 4, 5, 6] 6
        ⟨false, true, [9, 9, 9, 9, 9, 9], [], 0⟩).1 = EspErr.fail
    ∧ (handshake_deauth_and_capture idleState [1, 2, 3, 4, 5, 6] 6
        ⟨false, true, [9, 9, 9, 9, 9, 9], [], 0⟩).2.1.radio.promiscuous = true
    ∧ (handshake_deauth_and_capture idleState [1, 2, 3, 4, 5, 6] 6
        ⟨false, true, [9, 9, 9, 9, 9, 9], [], 0⟩).2.2
      = [RAction.setPromiscuous false, RAction.wifiStop, RAction.setChannel 6,
          RAction.wifiStart, RAction.setPromiscuous true, RAction.fsOpen false] := by
  refine ⟨rfl, rfl, rfl⟩

/-- C6 (code bug): a frame retained by the classifier whose payload fwrite
    fails makes pcap_writer_write_packet report failure (the fsWriteData false
    action is in the trace), yet promisc_cb discards that result and the
    session still terminates with ESP_OK — no write error is ever surfaced as
    a session failure. -/
theorem handshake_discards_write_error :
    (handshake_deauth_and_capture idleState [1, 2, 3, 4, 5, 6] 6
        ⟨true, true, [9, 9, 9, 9, 9, 9], [⟨eapolTestFrame, 0, 0, true, false⟩], 0⟩).1
      = EspErr.ok
    ∧ RAction.fsWriteData false ∈
        (handshake_deauth_and_capture idleState [1, 2, 3, 4, 5, 6] 6
          ⟨true, true, [9, 9, 9, 9, 9, 9], [⟨eapolTestFrame, 0, 0, true, false⟩], 0⟩).2.2 := by
  refine ⟨rfl, ?hmem⟩
  decide

/-- Counterexample to C8 as stated: called directly with channel 14 (outside
    1..13), handshake_deauth_and_capture does not reject the call — it
    returns ESP_OK and its trace contains the radio action setChannel 14, so
    radio reconfiguration does happen. -/
theorem handshake_channel14_not_rejected :
    (handshake_deauth_and_capture idleState [1, 2, 3, 4, 5, 6] 14
        ⟨true, true, [9, 9, 9, 9, 9, 9], [], 0⟩).1 = EspErr.ok
    ∧ RAction.setChannel 14 ∈
        (handshake_deauth_and_capture idleState [1, 2, 3, 4, 5, 6] 14
          ⟨true, true, [9, 9, 9, 9, 9, 9], [], 0⟩).2.2 := by
  refine ⟨rfl, ?hmem⟩
  decide

/-- HTTP responses of the attack endpoint relevant to channel validation. -/
inductive HandlerResp where
  | badRequestChannel
  | serverError
  | okResp
deriving DecidableEq

/-- Channel-validation fragment of attack_get_handler (http_server.c): after
    atoi parses the chan query parameter, a value below 1 or above 13 gets a
    400 response and the capture is never invoked; otherwise the handler runs
    handshake_deauth_and_capture and maps a non-ESP_OK result to a 500
    response. -/
def attack_get_handler (st : HsState) (channel : Int) (bssid : List Nat)
    (env : CaptureEnv) : HandlerResp × HsState × List RAction :=
  if channel < 1 ∨ 13 < channel then (HandlerResp.badRequestChannel, st, [])
  else
    let r := handshake_deauth_and_capture st bssid channel.toNat env
    (if r.1 = EspErr.ok then HandlerResp.okResp else HandlerResp.serverError, r.2.1, r.2.2)

/-- C8 amended: the out-of-range channel rejection lives in the HTTP attack
    handler, not in handshake_deauth_and_capture — for every channel outside
    1..13 the handler answers 400 Invalid channel before invoking the capture,
    so no radio action or file I/O happens and the session state is untouched. -/
theorem attack_handler_rejects_bad_channel (st : HsState) (channel : Int)
    (bssid : List Nat) (env : CaptureEnv) (h : channel < 1 ∨ 13 < channel) :
    attack_get_handler st channel bssid env = (HandlerResp.badRequestChannel, st, []) := by
  unfold attack_get_handler
  rw [if_pos h]

/-- Witness for the amended C8 at channel 14. -/
theorem attack_handler_rejects_bad_channel_witness :
    attack_get_handler idleState 14 [1, 2, 3, 4, 5, 6] ⟨true, true, [9, 9, 9, 9, 9, 9], [], 0⟩
      = (HandlerResp.badRequestChannel, idleState, []) :=
  attack_handler_rejects_bad_channel idleState 14 [1, 2, 3, 4, 5, 6]
    ⟨true, true, [9, 9, 9, 9, 9, 9], [], 0⟩ (Or.inr (by decide))
